import Mathlib

set_option linter.unnecessarySeqFocus false

/-!
Formal model of the satellite RF link-budget calculator found in
backend/app/routers/rf.py.

Numeric model: Python floats are modeled as real numbers (ℝ).  The static
DVB-S2 MODCOD table holds exact decimal thresholds; it is written once as a
list of rationals (ℚ), read off the source literally, and coerced into ℝ
where the program computes with it.  Python's math.log10 raises ValueError
on non-positive input, so it is modeled as an Option-valued function; the
FastAPI endpoint compute_cni is modeled as returning either a response
(Except.ok), a client-side rejection issued before the handler body runs
(RFError.clientError, HTTP 422), or an uncaught exception escaping the
handler (RFError.domainError, HTTP 500).
-/

namespace Satcom

/-- Mirror of the ModcodInfo pydantic model (rf.py lines 78-81), generic in
the numeric type so that the same shape serves the exact (ℚ) table analysis
and the real-valued program. -/
structure ModcodInfo (α : Type) where
  name : String
  required_esn0_db : α
  margin_db : α
deriving DecidableEq

/-- Mirror of DVB_S2_MODCODS (rf.py lines 95-128): DVB-S2 MODCOD ideal
Es/N0 thresholds in dB, transcribed literally in source order.  The decimal
literals are exact rationals here. -/
def DVB_S2_MODCODS : List (String × ℚ) := [
  ("QPSK 1/4", -2.35),
  ("QPSK 1/3", -1.24),
  ("QPSK 2/5", -0.30),
  ("QPSK 1/2", 1.00),
  ("QPSK 3/5", 2.23),
  ("QPSK 2/3", 3.10),
  ("QPSK 3/4", 4.03),
  ("QPSK 4/5", 4.68),
  ("QPSK 5/6", 5.18),
  ("QPSK 8/9", 6.20),
  ("QPSK 9/10", 6.42),
  ("8PSK 3/5", 5.50),
  ("8PSK 2/3", 6.62),
  ("8PSK 3/4", 7.91),
  ("8PSK 5/6", 9.35),
  ("8PSK 8/9", 10.69),
  ("8PSK 9/10", 10.98),
  ("16APSK 2/3", 8.97),
  ("16APSK 3/4", 10.21),
  ("16APSK 4/5", 11.03),
  ("16APSK 5/6", 11.61),
  ("16APSK 8/9", 12.89),
  ("16APSK 9/10", 13.13),
  ("32APSK 3/4", 12.73),
  ("32APSK 4/5", 13.64),
  ("32APSK 5/6", 14.28),
  ("32APSK 8/9", 15.69),
  ("32APSK 9/10", 16.05)]

noncomputable section

/-- Real-valued view of the table, as the Python program sees it. -/
def DVB_S2_MODCODS_R : List (String × ℝ) :=
  DVB_S2_MODCODS.map (fun p => (p.1, (p.2 : ℝ)))

/-- One iteration of the loop body of pick_best_modcod (rf.py lines
206-213): if the entry qualifies it becomes the new best, otherwise the
previous best is kept. -/
def pickStep (e : ℝ) (best : Option (ModcodInfo ℝ)) (nr : String × ℝ) :
    Option (ModcodInfo ℝ) :=
  if nr.2 ≤ e then some ⟨nr.1, nr.2, e - nr.2⟩ else best

/-- Mirror of pick_best_modcod (rf.py lines 199-214): fold the loop body
over the table starting from best = None. -/
def pick_best_modcod (e : ℝ) : Option (ModcodInfo ℝ) :=
  DVB_S2_MODCODS_R.foldl (pickStep e) none

end

/-! Generic facts about the selector fold, proved for an arbitrary table
prefix and accumulator so they can be established by plain induction. -/

theorem pickFold_none_iff (e : ℝ) :
    ∀ (l : List (String × ℝ)) (init : Option (ModcodInfo ℝ)),
      l.foldl (pickStep e) init = none ↔
        init = none ∧ ∀ x ∈ l, ¬ x.2 ≤ e := by
  intro l
  induction l with
  | nil => intro init; simp
  | cons a t ih =>
    intro init
    rw [List.foldl_cons, ih]
    unfold pickStep
    by_cases ha : a.2 ≤ e
    · simp [ha]
    · simp only [if_neg ha, List.mem_cons]
      constructor
      · rintro ⟨h1, h2⟩
        refine ⟨h1, ?_⟩
        intro x hx
        rcases hx with rfl | hx
        · exact ha
        · exact h2 x hx
      · rintro ⟨h1, h2⟩
        exact ⟨h1, fun x hx => h2 x (Or.inr hx)⟩

theorem pickFold_some (e : ℝ) :
    ∀ (l : List (String × ℝ)) (init : Option (ModcodInfo ℝ))
      (m : ModcodInfo ℝ), l.foldl (pickStep e) init = some m →
      (init = some m ∧ ∀ x ∈ l, ¬ x.2 ≤ e) ∨
      (∃ l₁ nr l₂, l = l₁ ++ nr :: l₂ ∧ nr.2 ≤ e ∧
        m = ⟨nr.1, nr.2, e - nr.2⟩ ∧ ∀ x ∈ l₂, ¬ x.2 ≤ e) := by
  intro l
  induction l with
  | nil => intro init m h; exact Or.inl ⟨h, by simp⟩
  | cons a t ih =>
    intro init m h
    rw [List.foldl_cons] at h
    rcases ih (pickStep e init a) m h with ⟨h1, h2⟩ | ⟨l₁, nr, l₂, rfl, hq, rfl, hfail⟩
    · unfold pickStep at h1
      by_cases ha : a.2 ≤ e
      · rw [if_pos ha] at h1
        refine Or.inr ⟨[], a, t, by simp, ha, ?_, h2⟩
        exact (Option.some.injEq _ _ ▸ h1).symm
      · rw [if_neg ha] at h1
        refine Or.inl ⟨h1, ?_⟩
        intro x hx
        rw [List.mem_cons] at hx
        rcases hx with rfl | hx
        · exact ha
        · exact h2 x hx
    · exact Or.inr ⟨a :: l₁, nr, l₂, by simp, hq, rfl, hfail⟩

/-- Characterization of a successful pick: the returned record is built
from a table entry that qualifies, every entry after it in the table does
not qualify, and the margin is the available ratio minus the threshold. -/
theorem pick_best_modcod_some {e : ℝ} {m : ModcodInfo ℝ}
    (h : pick_best_modcod e = some m) :
    ∃ l₁ nr l₂, DVB_S2_MODCODS_R = l₁ ++ nr :: l₂ ∧ nr.2 ≤ e ∧
      m = ⟨nr.1, nr.2, e - nr.2⟩ ∧ ∀ x ∈ l₂, ¬ x.2 ≤ e := by
  rcases pickFold_some e DVB_S2_MODCODS_R none m h with ⟨h1, _⟩ | hex
  · cases h1
  · exact hex

/-- Characterization of a failed pick: no table entry qualifies. -/
theorem pick_best_modcod_none_iff {e : ℝ} :
    pick_best_modcod e = none ↔ ∀ x ∈ DVB_S2_MODCODS_R, ¬ x.2 ≤ e := by
  unfold pick_best_modcod
  rw [pickFold_none_iff]
  simp

/-- Evaluation of the real-valued table to an explicit list of real
literals. -/
theorem tableR_explicit : DVB_S2_MODCODS_R = [
    ("QPSK 1/4", (-2.35 : ℝ)), ("QPSK 1/3", -1.24), ("QPSK 2/5", -0.30),
    ("QPSK 1/2", 1.00), ("QPSK 3/5", 2.23), ("QPSK 2/3", 3.10),
    ("QPSK 3/4", 4.03), ("QPSK 4/5", 4.68), ("QPSK 5/6", 5.18),
    ("QPSK 8/9", 6.20), ("QPSK 9/10", 6.42), ("8PSK 3/5", 5.50),
    ("8PSK 2/3", 6.62), ("8PSK 3/4", 7.91), ("8PSK 5/6", 9.35),
    ("8PSK 8/9", 10.69), ("8PSK 9/10", 10.98), ("16APSK 2/3", 8.97),
    ("16APSK 3/4", 10.21), ("16APSK 4/5", 11.03), ("16APSK 5/6", 11.61),
    ("16APSK 8/9", 12.89), ("16APSK 9/10", 13.13), ("32APSK 3/4", 12.73),
    ("32APSK 4/5", 13.64), ("32APSK 5/6", 14.28), ("32APSK 8/9", 15.69),
    ("32APSK 9/10", 16.05)] := by
  norm_num [DVB_S2_MODCODS_R, DVB_S2_MODCODS]

/-- Every threshold in the table is at least the QPSK 1/4 threshold. -/
theorem table_lb : ∀ x ∈ DVB_S2_MODCODS_R, (-2.35 : ℝ) ≤ x.2 := by
  norm_num [DVB_S2_MODCODS_R, DVB_S2_MODCODS]

/-- Projecting the real-valued table to names gives the same name list as
the rational table. -/
theorem tableR_names :
    DVB_S2_MODCODS_R.map Prod.fst = DVB_S2_MODCODS.map Prod.fst := by
  simp [DVB_S2_MODCODS_R, List.map_map, Function.comp]

/-- Length of the rational table. -/
theorem table_length : DVB_S2_MODCODS.length = 28 := by
  norm_num [DVB_S2_MODCODS]

/-- Key structural fact behind claim C3: if an entry with name bname and
threshold tb is preceded nowhere in the table by the entry (sname, sb),
while (sname, sb) sits after it with sb ≤ tb, then no pick can return an
entry named bname: the later, easier entry would overwrite it in the scan.
The positional hypothesis hpos is phrased over the name list so it is
decidable. -/
theorem shadow_not_picked (bname sname : String) (tb sb : ℚ)
    (hmemS : (sname, sb) ∈ DVB_S2_MODCODS)
    (hle : sb ≤ tb)
    (hns : sname ≠ bname)
    (huniq : ∀ x ∈ DVB_S2_MODCODS, x.1 = bname → x.2 = tb)
    (hpos : ∀ k, k < 28 → (DVB_S2_MODCODS.map Prod.fst)[k]? = some bname →
      sname ∉ (DVB_S2_MODCODS.map Prod.fst).take k) :
    ∀ (e : ℝ) (m : ModcodInfo ℝ), pick_best_modcod e = some m →
      m.name ≠ bname := by
  intro e m hm hbname
  obtain ⟨l₁, nr, l₂, hdec, hq, hmval, hfail⟩ := pick_best_modcod_some hm
  subst hmval
  have hnr : nr.1 = bname := hbname
  have hnrmem : nr ∈ DVB_S2_MODCODS_R := by
    rw [hdec]
    exact List.mem_append.mpr (Or.inr (List.mem_cons_self _ _))
  have huniqR : ∀ x ∈ DVB_S2_MODCODS_R, x.1 = bname → x.2 = (tb : ℝ) := by
    intro x hx h1
    obtain ⟨q, hq1, rfl⟩ := List.mem_map.mp hx
    exact congrArg (fun r : ℚ => (r : ℝ)) (huniq q hq1 h1)
  have hnr2 : nr.2 = (tb : ℝ) := huniqR nr hnrmem hnr
  have hsR : ((sname, (sb : ℝ)) : String × ℝ) ∈ DVB_S2_MODCODS_R :=
    List.mem_map.mpr ⟨(sname, sb), hmemS, rfl⟩
  rw [hdec] at hsR
  rcases List.mem_append.mp hsR with hsl₁ | hscons
  · -- the shadow entry would have to sit before the bname entry
    have hk : l₁.length < 28 := by
      have hlen : DVB_S2_MODCODS_R.length = 28 := by
        have := congrArg List.length tableR_names
        simp only [List.length_map] at this
        rw [this, table_length]
      have : DVB_S2_MODCODS_R.length = l₁.length + (l₂.length + 1) := by
        rw [hdec]; simp
      omega
    have hmapdec : DVB_S2_MODCODS.map Prod.fst =
        l₁.map Prod.fst ++ nr.1 :: l₂.map Prod.fst := by
      rw [← tableR_names, hdec]
      simp
    have hget : (DVB_S2_MODCODS.map Prod.fst)[l₁.length]? = some bname := by
      rw [hmapdec, List.getElem?_append_right (by simp)]
      simp [hnr]
    have htake : sname ∈ (DVB_S2_MODCODS.map Prod.fst).take l₁.length := by
      have h1 : sname ∈ l₁.map Prod.fst :=
        List.mem_map.mpr ⟨(sname, (sb : ℝ)), hsl₁, rfl⟩
      have h2 : (DVB_S2_MODCODS.map Prod.fst).take l₁.length =
          l₁.map Prod.fst := by
        rw [hmapdec]
        have := List.take_left (l₁.map Prod.fst) (nr.1 :: l₂.map Prod.fst)
        simp only [List.length_map] at this
        exact this
      rw [h2]
      exact h1
    exact hpos l₁.length hk hget htake
  · rcases List.mem_cons.mp hscons with hseq | hsl₂
    · exact hns ((congrArg Prod.fst hseq).trans hnr)
    · have h1 : ¬ (sb : ℝ) ≤ e := hfail _ hsl₂
      have h2 : (sb : ℝ) ≤ (tb : ℝ) := by exact_mod_cast hle
      exact h1 (le_trans (hnr2 ▸ h2) hq)

/-! Claim theorems about the MODCOD table and selector. -/

/-- C1 counterexample: at available Es/N0 = 6.3 dB the scan returns the
8PSK 3/5 entry with threshold 5.5 dB, although the qualifying entry
QPSK 8/9 has the strictly higher threshold 6.2 dB.  So pick_best_modcod
does not return the entry with the highest threshold not exceeding the
available ratio. -/
theorem C1_counterexample :
    pick_best_modcod (6.3 : ℝ) = some ⟨"8PSK 3/5", 5.5, 0.8⟩ ∧
    ("QPSK 8/9", (6.2 : ℝ)) ∈ DVB_S2_MODCODS_R ∧
    (6.2 : ℝ) ≤ 6.3 ∧ (5.5 : ℝ) < 6.2 := by
  refine ⟨?_, ?_, by norm_num, by norm_num⟩
  · norm_num [pick_best_modcod, tableR_explicit, pickStep, List.foldl]
  · norm_num [DVB_S2_MODCODS_R, DVB_S2_MODCODS]

/-- C1 (amended): pick_best_modcod(available) keeps the last entry of the
table scan whose threshold does not exceed available — its margin is
available minus its threshold, it qualifies, and every entry after it in
table order does not qualify.  Because the table is not globally ascending
this entry need not carry the highest qualifying threshold. -/
theorem C1_pick_last_qualifying :
    ∀ (e : ℝ) (m : ModcodInfo ℝ), pick_best_modcod e = some m →
      m.margin_db = e - m.required_esn0_db ∧
      ∃ l₁ l₂, DVB_S2_MODCODS_R = l₁ ++ (m.name, m.required_esn0_db) :: l₂ ∧
        m.required_esn0_db ≤ e ∧ ∀ x ∈ l₂, ¬ x.2 ≤ e := by
  intro e m hm
  obtain ⟨l₁, nr, l₂, hdec, hq, hmval, hfail⟩ := pick_best_modcod_some hm
  subst hmval
  exact ⟨rfl, l₁, l₂, by rw [hdec], hq, hfail⟩

/-- C1 witness: the amended characterization evaluated at available
Es/N0 = 7 dB, where the scan returns 8PSK 2/3 with margin 0.38 dB. -/
theorem C1_witness :
    (0.38 : ℝ) = 7 - 6.62 ∧
    ∃ l₁ l₂, DVB_S2_MODCODS_R = l₁ ++ ("8PSK 2/3", (6.62 : ℝ)) :: l₂ ∧
      (6.62 : ℝ) ≤ 7 ∧ ∀ x ∈ l₂, ¬ x.2 ≤ (7 : ℝ) :=
  C1_pick_last_qualifying 7 ⟨"8PSK 2/3", 6.62, 0.38⟩
    (by norm_num [pick_best_modcod, tableR_explicit, pickStep, List.foldl])

/-- C2 counterexample: the table is not sorted by ascending required
Es/N0 — entry 10 (QPSK 9/10, 6.42 dB) is followed by entry 11
(8PSK 3/5, 5.5 dB). -/
theorem C2_counterexample :
    (10 : ℕ) < 11 ∧
    DVB_S2_MODCODS[10]?.map Prod.snd = some (6.42 : ℚ) ∧
    DVB_S2_MODCODS[11]?.map Prod.snd = some (5.5 : ℚ) ∧
    ¬ ((6.42 : ℚ) ≤ 5.5) := by
  refine ⟨by norm_num, ?_, ?_, by norm_num⟩ <;> norm_num [DVB_S2_MODCODS]

/-- Evaluation of the QPSK segment of the table. -/
theorem table_seg_qpsk : DVB_S2_MODCODS.take 11 = [
    ("QPSK 1/4", (-2.35 : ℚ)), ("QPSK 1/3", -1.24), ("QPSK 2/5", -0.30),
    ("QPSK 1/2", 1.00), ("QPSK 3/5", 2.23), ("QPSK 2/3", 3.10),
    ("QPSK 3/4", 4.03), ("QPSK 4/5", 4.68), ("QPSK 5/6", 5.18),
    ("QPSK 8/9", 6.20), ("QPSK 9/10", 6.42)] := rfl

/-- Evaluation of the 8PSK segment of the table. -/
theorem table_seg_8psk : (DVB_S2_MODCODS.drop 11).take 6 = [
    ("8PSK 3/5", (5.50 : ℚ)), ("8PSK 2/3", 6.62), ("8PSK 3/4", 7.91),
    ("8PSK 5/6", 9.35), ("8PSK 8/9", 10.69), ("8PSK 9/10", 10.98)] := rfl

/-- Evaluation of the 16APSK segment of the table. -/
theorem table_seg_16apsk : (DVB_S2_MODCODS.drop 17).take 6 = [
    ("16APSK 2/3", (8.97 : ℚ)), ("16APSK 3/4", 10.21),
    ("16APSK 4/5", 11.03), ("16APSK 5/6", 11.61), ("16APSK 8/9", 12.89),
    ("16APSK 9/10", 13.13)] := rfl

/-- Evaluation of the 32APSK segment of the table. -/
theorem table_seg_32apsk : DVB_S2_MODCODS.drop 23 = [
    ("32APSK 3/4", (12.73 : ℚ)), ("32APSK 4/5", 13.64),
    ("32APSK 5/6", 14.28), ("32APSK 8/9", 15.69),
    ("32APSK 9/10", 16.05)] := rfl

/-- C2 (amended): the table is sorted by ascending required Es/N0 within
each modulation family (QPSK entries 0-10, 8PSK entries 11-16, 16APSK
entries 17-22, 32APSK entries 23-27), but not globally: thresholds drop
at each family boundary. -/
theorem C2_sorted_within_families :
    ((DVB_S2_MODCODS.take 11).Pairwise fun a b => a.2 ≤ b.2) ∧
    (((DVB_S2_MODCODS.drop 11).take 6).Pairwise fun a b => a.2 ≤ b.2) ∧
    (((DVB_S2_MODCODS.drop 17).take 6).Pairwise fun a b => a.2 ≤ b.2) ∧
    ((DVB_S2_MODCODS.drop 23).Pairwise fun a b => a.2 ≤ b.2) ∧
    ¬ (DVB_S2_MODCODS.Pairwise fun a b => a.2 ≤ b.2) := by
  refine ⟨?_, ?_, ?_, ?_, ?_⟩
  · rw [table_seg_qpsk]; norm_num [List.pairwise_cons]
  · rw [table_seg_8psk]; norm_num [List.pairwise_cons]
  · rw [table_seg_16apsk]; norm_num [List.pairwise_cons]
  · rw [table_seg_32apsk]; norm_num [List.pairwise_cons]
  · intro h
    have h2 := List.pairwise_iff_getElem.mp h 10 11
      (by rw [table_length]; omega) (by rw [table_length]; omega)
      (by omega)
    simp only [DVB_S2_MODCODS, List.getElem_cons_succ,
      List.getElem_cons_zero] at h2
    norm_num at h2

set_option maxHeartbeats 1600000 in
/-- C3: entries shadowed by a later entry with a lower-or-equal threshold
are never returned by pick_best_modcod, for any real available Es/N0. -/
theorem C3_shadowed_never_selected :
    ∀ (e : ℝ) (m : ModcodInfo ℝ), pick_best_modcod e = some m →
      m.name ∉ (["QPSK 8/9", "QPSK 9/10", "8PSK 5/6", "8PSK 8/9",
        "8PSK 9/10", "16APSK 8/9", "16APSK 9/10"] : List String) := by
  intro e m hm hmem
  simp only [List.mem_cons, List.not_mem_nil, or_false] at hmem
  rcases hmem with h | h | h | h | h | h | h
  · exact shadow_not_picked "QPSK 8/9" "8PSK 3/5" 6.2 5.5
      (by norm_num [DVB_S2_MODCODS]) (by norm_num) (by decide)
      (by norm_num [DVB_S2_MODCODS] <;> decide) (by decide) e m hm h
  · exact shadow_not_picked "QPSK 9/10" "8PSK 3/5" 6.42 5.5
      (by norm_num [DVB_S2_MODCODS]) (by norm_num) (by decide)
      (by norm_num [DVB_S2_MODCODS] <;> decide) (by decide) e m hm h
  · exact shadow_not_picked "8PSK 5/6" "16APSK 2/3" 9.35 8.97
      (by norm_num [DVB_S2_MODCODS]) (by norm_num) (by decide)
      (by norm_num [DVB_S2_MODCODS] <;> decide) (by decide) e m hm h
  · exact shadow_not_picked "8PSK 8/9" "16APSK 2/3" 10.69 8.97
      (by norm_num [DVB_S2_MODCODS]) (by norm_num) (by decide)
      (by norm_num [DVB_S2_MODCODS] <;> decide) (by decide) e m hm h
  · exact shadow_not_picked "8PSK 9/10" "16APSK 2/3" 10.98 8.97
      (by norm_num [DVB_S2_MODCODS]) (by norm_num) (by decide)
      (by norm_num [DVB_S2_MODCODS] <;> decide) (by decide) e m hm h
  · exact shadow_not_picked "16APSK 8/9" "32APSK 3/4" 12.89 12.73
      (by norm_num [DVB_S2_MODCODS]) (by norm_num) (by decide)
      (by norm_num [DVB_S2_MODCODS] <;> decide) (by decide) e m hm h
  · exact shadow_not_picked "16APSK 9/10" "32APSK 3/4" 13.13 12.73
      (by norm_num [DVB_S2_MODCODS]) (by norm_num) (by decide)
      (by norm_num [DVB_S2_MODCODS] <;> decide) (by decide) e m hm h

/-- C3 witness: at available Es/N0 = 10 dB the selector returns
16APSK 2/3, whose name is not among the shadowed entries. -/
theorem C3_witness :
    ("16APSK 2/3" : String) ∉ (["QPSK 8/9", "QPSK 9/10", "8PSK 5/6",
      "8PSK 8/9", "8PSK 9/10", "16APSK 8/9", "16APSK 9/10"] :
        List String) :=
  C3_shadowed_never_selected 10 ⟨"16APSK 2/3", 8.97, 1.03⟩
    (by norm_num [pick_best_modcod, tableR_explicit, pickStep, List.foldl])

/-- C5: MODCOD selection is monotone in the available ratio — if the
selector returns an entry at e1 and e1 ≤ e2, it also returns an entry at
e2 whose required Es/N0 is at least the one selected at e1. -/
theorem C5_monotone :
    ∀ (e1 e2 : ℝ), e1 ≤ e2 → ∀ m1 : ModcodInfo ℝ,
      pick_best_modcod e1 = some m1 →
      ∃ m2, pick_best_modcod e2 = some m2 ∧
        m1.required_esn0_db ≤ m2.required_esn0_db := by
  intro e1 e2 h12 m1 hm1
  obtain ⟨l₁, nr₁, l₂, hdec1, hq1, hval1, hfail1⟩ := pick_best_modcod_some hm1
  rcases h2 : pick_best_modcod e2 with _ | m2
  · rw [pick_best_modcod_none_iff] at h2
    have hmem : nr₁ ∈ DVB_S2_MODCODS_R := by
      rw [hdec1]
      exact List.mem_append.mpr (Or.inr (List.mem_cons_self _ _))
    exact absurd (le_trans hq1 h12) (h2 nr₁ hmem)
  · obtain ⟨m₁l, nr₂, m₂l, hdec2, hq2, hval2, hfail2⟩ :=
      pick_best_modcod_some h2
    refine ⟨m2, rfl, ?_⟩
    subst hval1
    subst hval2
    show nr₁.2 ≤ nr₂.2
    have heq : l₁ ++ nr₁ :: l₂ = m₁l ++ nr₂ :: m₂l := by
      rw [← hdec1, ← hdec2]
    rcases List.append_eq_append_iff.mp heq with ⟨t, _, hb⟩ | ⟨t, _, hd⟩
    · cases t with
      | nil =>
        simp only [List.nil_append, List.cons.injEq] at hb
        rw [hb.1]
      | cons hh tt =>
        simp only [List.cons_append, List.cons.injEq] at hb
        have : nr₂ ∈ l₂ := by
          rw [hb.2]
          exact List.mem_append.mpr (Or.inr (List.mem_cons_self _ _))
        exact le_of_lt (lt_of_le_of_lt hq1 (lt_of_not_le (hfail1 nr₂ this)))
    · cases t with
      | nil =>
        simp only [List.nil_append, List.cons.injEq] at hd
        rw [hd.1]
      | cons hh tt =>
        simp only [List.cons_append, List.cons.injEq] at hd
        have : nr₁ ∈ m₂l := by
          rw [hd.2]
          exact List.mem_append.mpr (Or.inr (List.mem_cons_self _ _))
        exact absurd (le_trans hq1 h12) (hfail2 nr₁ this)

/-- C5 witness: the monotonicity theorem applied at e1 = 0 and e2 = 1;
the entry selected at 0 dB is QPSK 2/5 with threshold -0.3 dB. -/
theorem C5_witness :
    ∃ m2, pick_best_modcod (1 : ℝ) = some m2 ∧
      (-0.30 : ℝ) ≤ m2.required_esn0_db :=
  C5_monotone 0 1 (by norm_num) ⟨"QPSK 2/5", -0.30, 0.30⟩
    (by norm_num [pick_best_modcod, tableR_explicit, pickStep, List.foldl])

/-- C6: the selector returns None exactly when the available Es/N0 is
below the lowest table threshold -2.35 dB; at exactly -2.35 dB it returns
the QPSK 1/4 entry with margin 0, and at -2.36 dB it returns None. -/
theorem C6_none_iff_below_lowest :
    (∀ e : ℝ, pick_best_modcod e = none ↔ e < -2.35) ∧
    pick_best_modcod (-2.35 : ℝ) = some ⟨"QPSK 1/4", -2.35, 0⟩ ∧
    pick_best_modcod (-2.36 : ℝ) = none := by
  refine ⟨?_, ?_, ?_⟩
  · intro e
    rw [pick_best_modcod_none_iff]
    constructor
    · intro h
      have hmem : (("QPSK 1/4", (-2.35 : ℝ)) : String × ℝ) ∈
          DVB_S2_MODCODS_R := by
        norm_num [DVB_S2_MODCODS_R, DVB_S2_MODCODS]
      have := h _ hmem
      exact lt_of_not_le this
    · intro he x hx
      have := table_lb x hx
      intro hle
      linarith
  · norm_num [pick_best_modcod, tableR_explicit, pickStep, List.foldl]
  · norm_num [pick_best_modcod, tableR_explicit, pickStep, List.foldl]

/-! Link-budget arithmetic, geometry and the orchestrator (rf.py lines
133-293), modeled over ℝ. -/

noncomputable section

/-- Mirror of math.radians: degrees to radians. -/
def radians (x : ℝ) : ℝ := x * Real.pi / 180

/-- Mirror of geo_slant_range_km (rf.py lines 133-151) with explicit
Earth and GEO radii arguments. -/
def geo_slant_range_km_gen
    (ground_lat_deg ground_lon_deg sat_lon_deg re_km rs_km : ℝ) : ℝ :=
  let phi := radians ground_lat_deg
  let dlon := radians (ground_lon_deg - sat_lon_deg)
  let cos_psi := Real.cos phi * Real.cos dlon
  let r2 := re_km ^ 2 + rs_km ^ 2 - 2 * re_km * rs_km * cos_psi
  Real.sqrt (max r2 0)

/-- Mirror of geo_slant_range_km at the Python default radii
re_km = 6378 and rs_km = 42164. -/
def geo_slant_range_km (ground_lat_deg ground_lon_deg sat_lon_deg : ℝ) :
    ℝ :=
  geo_slant_range_km_gen ground_lat_deg ground_lon_deg sat_lon_deg
    6378 42164

/-- Model of math.log10: defined (base-10 logarithm) on positive input,
raises ValueError (modeled as none) otherwise. -/
def log10? (x : ℝ) : Option ℝ :=
  if 0 < x then some (Real.logb 10 x) else none

/-- Mirror of fspl_db (rf.py lines 154-160): free-space path loss; the
two log10 calls can raise, so the result is optional. -/
def fspl_db? (distance_km freq_ghz : ℝ) : Option ℝ :=
  match log10? distance_km, log10? freq_ghz with
  | some ld, some lf => some (92.45 + 20 * ld + 20 * lf)
  | _, _ => none

/-- Mirror of cn0_dbhz_from_eirp_gt (rf.py lines 163-175): pure
arithmetic, never raises. -/
def cn0_dbhz_from_eirp_gt
    (eirp_dbw gt_dbk fspl_db_val extra_losses_db : ℝ) : ℝ :=
  eirp_dbw + gt_dbk - fspl_db_val - extra_losses_db + 228.6

/-- Mirror of cn_db_from_cn0 (rf.py lines 178-182): its log10 call can
raise on a non-positive noise bandwidth. -/
def cn_db_from_cn0? (cn0_dbhz noise_bw_hz : ℝ) : Option ℝ :=
  (log10? noise_bw_hz).map fun l => cn0_dbhz - 10 * l

/-- Mirror of combine_cn_linear (rf.py lines 185-196).  For real inputs
both linear ratios are strictly positive, so the divisions and the final
log10 are total; it is therefore modeled with Real.logb directly. -/
def combine_cn_linear (cn1_db cn2_db : ℝ) : ℝ :=
  let cn1_lin : ℝ := (10 : ℝ) ^ (cn1_db / 10)
  let cn2_lin : ℝ := (10 : ℝ) ^ (cn2_db / 10)
  let total_lin := 1 / (1 / cn1_lin + 1 / cn2_lin)
  10 * Real.logb 10 total_lin

/-- Mirror of the Location pydantic model (rf.py lines 12-14). -/
structure Location where
  latitude_deg : ℝ
  longitude_deg : ℝ

/-- Mirror of the GroundTerminal pydantic model (rf.py lines 17-24). -/
structure GroundTerminal where
  location : Location
  eirp_dbw : ℝ
  gt_dbk : ℝ
  npr_db : ℝ

/-- Mirror of the LinkGeometry pydantic model (rf.py lines 27-30). -/
structure LinkGeometry where
  satellite_longitude_deg : ℝ

/-- Mirror of the LinkFrequencies pydantic model (rf.py lines 33-39).
The fields are declared as plain floats there: no positivity constraint
is attached to any of them. -/
structure LinkFrequencies where
  uplink_freq_ghz : ℝ
  downlink_freq_ghz : ℝ
  noise_bandwidth_hz : ℝ

/-- Mirror of the SatelliteRF pydantic model (rf.py lines 42-60). -/
structure SatelliteRF where
  uplink_gt_dbk : ℝ
  downlink_eirp_dbw : ℝ
  uplink_impl_margin_db : ℝ
  downlink_impl_margin_db : ℝ
  npr_db : ℝ

/-- Mirror of the CniRequest pydantic model (rf.py lines 63-73). -/
structure CniRequest where
  user1 : GroundTerminal
  user2 : GroundTerminal
  geometry : LinkGeometry
  rf : SatelliteRF
  freqs : LinkFrequencies
  modcod_margin_db : ℝ

/-- Mirror of the CniResponse pydantic model (rf.py lines 84-90). -/
structure CniResponse where
  uplink_cni_db : ℝ
  downlink_cni_db : ℝ
  total_cni_db : ℝ
  uplink_cn0_dbhz : ℝ
  downlink_cn0_dbhz : ℝ
  suggested_modcod : Option (ModcodInfo ℝ)

/-- Observable outcomes of the FastAPI endpoint: a validation rejection
issued before the handler body runs (HTTP 422) or an uncaught exception
escaping the handler (HTTP 500, here a math domain error from log10). -/
inductive RFError where
  | clientError
  | domainError
deriving DecidableEq

/-- Lift of the optional result of a raising computation into the
endpoint outcome: an uncaught ValueError surfaces as a server-side
domain error, never as a client error. -/
def toED (o : Option ℝ) : Except RFError ℝ :=
  match o with
  | some x => Except.ok x
  | none => Except.error RFError.domainError

/-- Mirror of the compute_cni endpoint body (rf.py lines 219-293).  The
handler performs no validation of its own: it goes straight into the
geometry, path-loss, C/N0, C/(N+I) pipeline, and any ValueError raised
by log10 on the way escapes it. -/
def compute_cni (req : CniRequest) : Except RFError CniResponse :=
  let d_uplink_km := geo_slant_range_km req.user1.location.latitude_deg
    req.user1.location.longitude_deg req.geometry.satellite_longitude_deg
  let d_downlink_km := geo_slant_range_km req.user2.location.latitude_deg
    req.user2.location.longitude_deg req.geometry.satellite_longitude_deg
  match toED (fspl_db? d_uplink_km req.freqs.uplink_freq_ghz) with
  | Except.error er => Except.error er
  | Except.ok fspl_uplink_db =>
    match toED (fspl_db? d_downlink_km req.freqs.downlink_freq_ghz) with
    | Except.error er => Except.error er
    | Except.ok fspl_downlink_db =>
      let cn0_uplink_dbhz := cn0_dbhz_from_eirp_gt req.user1.eirp_dbw
        req.rf.uplink_gt_dbk fspl_uplink_db req.rf.uplink_impl_margin_db
      match toED (cn_db_from_cn0? cn0_uplink_dbhz
          req.freqs.noise_bandwidth_hz) with
      | Except.error er => Except.error er
      | Except.ok cn_uplink_db =>
        let cni_uplink_db := combine_cn_linear cn_uplink_db req.user1.npr_db
        let cn0_downlink_dbhz := cn0_dbhz_from_eirp_gt
          req.rf.downlink_eirp_dbw req.user2.gt_dbk fspl_downlink_db
          req.rf.downlink_impl_margin_db
        match toED (cn_db_from_cn0? cn0_downlink_dbhz
            req.freqs.noise_bandwidth_hz) with
        | Except.error er => Except.error er
        | Except.ok cn_downlink_db =>
          let cni_downlink_db := combine_cn_linear cn_downlink_db
            req.rf.npr_db
          let total_cni_db := combine_cn_linear cni_uplink_db
            cni_downlink_db
          let available_esn0_db := total_cni_db - req.modcod_margin_db
          Except.ok ⟨cni_uplink_db, cni_downlink_db, total_cni_db,
            cn0_uplink_dbhz, cn0_downlink_dbhz,
            pick_best_modcod available_esn0_db⟩

/-- Replace only the modcod_margin_db field of a request. -/
def setMargin (req : CniRequest) (m : ℝ) : CniRequest :=
  ⟨req.user1, req.user2, req.geometry, req.rf, req.freqs, m⟩

/-- Projection of a response onto its five numeric link-quality fields,
dropping only suggested_modcod. -/
def stripModcod (r : CniResponse) : ℝ × ℝ × ℝ × ℝ × ℝ :=
  (r.uplink_cni_db, r.downlink_cni_db, r.total_cni_db,
    r.uplink_cn0_dbhz, r.downlink_cn0_dbhz)

/-- Concrete request for the validation analysis: both terminals at the
sub-satellite point, uplink 14 GHz, downlink 12 GHz, and a noise
bandwidth of 0 Hz, which a validating orchestrator must reject. -/
def req0 : CniRequest :=
  ⟨⟨⟨0, 0⟩, 50, 15, 100⟩, ⟨⟨0, 0⟩, 50, 15, 100⟩, ⟨0⟩,
    ⟨-5, 45, 0, 0, 100⟩, ⟨14, 12, 0⟩, 1⟩

end

/-! Helper lemmas about the geometry and link-budget functions. -/

/-- At the sub-satellite point the slant range is exactly
42164 - 6378 = 35786 km. -/
theorem geo_sub_satellite (s : ℝ) : geo_slant_range_km 0 s s = 35786 := by
  simp only [geo_slant_range_km, geo_slant_range_km_gen, radians,
    sub_self, zero_mul, zero_div, Real.cos_zero, mul_one]
  rw [show ((6378:ℝ) ^ 2 + 42164 ^ 2 - 2 * 6378 * 42164) =
    35786 ^ 2 by norm_num]
  rw [max_eq_left (by positivity)]
  exact Real.sqrt_sq (by norm_num)

/-- The slant range at the default radii is at least 35786 km for every
ground position. -/
theorem geo_ge (lat lon s : ℝ) : 35786 ≤ geo_slant_range_km lat lon s := by
  simp only [geo_slant_range_km, geo_slant_range_km_gen]
  have hc : Real.cos (radians lat) * Real.cos (radians (lon - s)) ≤ 1 := by
    nlinarith [Real.neg_one_le_cos (radians lat),
      Real.cos_le_one (radians lat),
      Real.neg_one_le_cos (radians (lon - s)),
      Real.cos_le_one (radians (lon - s))]
  have hr2 : (35786:ℝ) ^ 2 ≤ (6378:ℝ) ^ 2 + 42164 ^ 2 -
      2 * 6378 * 42164 * (Real.cos (radians lat) *
        Real.cos (radians (lon - s))) := by nlinarith
  calc (35786:ℝ) = Real.sqrt (35786 ^ 2) :=
      (Real.sqrt_sq (by norm_num)).symm
    _ ≤ _ := Real.sqrt_le_sqrt (le_trans hr2 (le_max_left _ _))

/-- The slant range is non-negative for all inputs, radii included. -/
theorem geo_nonneg (lat lon s re rs : ℝ) :
    0 ≤ geo_slant_range_km_gen lat lon s re rs := by
  simp only [geo_slant_range_km_gen]
  exact Real.sqrt_nonneg _

/-- Commutativity of the reciprocal-sum combination. -/
theorem combine_comm (a b : ℝ) :
    combine_cn_linear a b = combine_cn_linear b a := by
  simp only [combine_cn_linear]
  rw [add_comm]

/-- Combining a ratio with itself costs exactly 10 log10 2 dB. -/
theorem combine_self (x : ℝ) :
    combine_cn_linear x x = x - 10 * Real.logb 10 2 := by
  simp only [combine_cn_linear]
  have hA : (0:ℝ) < (10:ℝ) ^ (x / 10) :=
    Real.rpow_pos_of_pos (by norm_num) _
  have h1 : (1:ℝ) / (1 / ((10:ℝ) ^ (x / 10)) +
      1 / ((10:ℝ) ^ (x / 10))) = ((10:ℝ) ^ (x / 10)) / 2 := by
    rw [div_add_div_same, one_div_div]
    norm_num
  rw [h1, Real.logb_div (ne_of_gt hA) (by norm_num),
    Real.logb_rpow (by norm_num) (by norm_num)]
  ring

/-- The combined ratio never exceeds the first argument. -/
theorem combine_le_left (a b : ℝ) : combine_cn_linear a b ≤ a := by
  simp only [combine_cn_linear]
  have hA : (0:ℝ) < (10:ℝ) ^ (a / 10) :=
    Real.rpow_pos_of_pos (by norm_num) _
  have hB : (0:ℝ) < (10:ℝ) ^ (b / 10) :=
    Real.rpow_pos_of_pos (by norm_num) _
  have htot : (0:ℝ) < 1 / (1 / ((10:ℝ) ^ (a / 10)) +
      1 / ((10:ℝ) ^ (b / 10))) := by positivity
  have hle : (1:ℝ) / (1 / ((10:ℝ) ^ (a / 10)) +
      1 / ((10:ℝ) ^ (b / 10))) ≤ (10:ℝ) ^ (a / 10) := by
    rw [div_le_iff₀ (by positivity)]
    have h2 : (10:ℝ) ^ (a / 10) * (1 / (10:ℝ) ^ (a / 10)) = 1 := by
      field_simp
    have h3 : (0:ℝ) < (10:ℝ) ^ (a / 10) * (1 / (10:ℝ) ^ (b / 10)) :=
      mul_pos hA (div_pos one_pos hB)
    calc (1:ℝ) = (10:ℝ) ^ (a / 10) * (1 / (10:ℝ) ^ (a / 10)) := h2.symm
      _ ≤ (10:ℝ) ^ (a / 10) * (1 / (10:ℝ) ^ (a / 10)) +
          (10:ℝ) ^ (a / 10) * (1 / (10:ℝ) ^ (b / 10)) := by linarith
      _ = (10:ℝ) ^ (a / 10) * (1 / (10:ℝ) ^ (a / 10) +
          1 / (10:ℝ) ^ (b / 10)) := by ring
  calc (10:ℝ) * Real.logb 10 (1 / (1 / ((10:ℝ) ^ (a / 10)) +
        1 / ((10:ℝ) ^ (b / 10)))) ≤
      10 * Real.logb 10 ((10:ℝ) ^ (a / 10)) := by
        have := Real.logb_le_logb_of_le (by norm_num : (1:ℝ) < 10) htot hle
        linarith
    _ = a := by
        rw [Real.logb_rpow (by norm_num) (by norm_num)]
        ring

/-- Evaluation of cn_db_from_cn0? at a zero noise bandwidth: log10
raises, so there is no result. -/
theorem cn_db_zero_bw (c : ℝ) : cn_db_from_cn0? c 0 = none := by
  simp only [cn_db_from_cn0?, log10?]
  rw [if_neg (by norm_num)]
  rfl

/-- Evaluation of fspl_db? on positive distance and frequency. -/
theorem fspl_pos_pos {d f : ℝ} (hd : 0 < d) (hf : 0 < f) :
    fspl_db? d f = some (92.45 + 20 * Real.logb 10 d +
      20 * Real.logb 10 f) := by
  simp only [fspl_db?, log10?]
  rw [if_pos hd, if_pos hf]

/-! Claim theorems about the link budget and the orchestrator. -/

/-- C7: combine_cn_linear is commutative, and combining two equal ratios
loses exactly 10 log10 2 (about 3.01) dB. -/
theorem C7_combine_comm_and_equal_inputs :
    (∀ a b : ℝ, combine_cn_linear a b = combine_cn_linear b a) ∧
    (∀ x : ℝ, combine_cn_linear x x = x - 10 * Real.logb 10 2) :=
  ⟨combine_comm, combine_self⟩

/-- C8: combining never improves the ratio — the combined value is at
most the smaller input. -/
theorem C8_combine_never_improves :
    ∀ a b : ℝ, combine_cn_linear a b ≤ min a b := by
  intro a b
  refine le_min (combine_le_left a b) ?_
  rw [combine_comm]
  exact combine_le_left b a

/-- C9: with the default radii the slant range at the sub-satellite point
is exactly 35786 km, this is the minimum over all ground positions, and
the function is non-negative for all inputs. -/
theorem C9_slant_range_minimum :
    (∀ s : ℝ, geo_slant_range_km 0 s s = 35786) ∧
    (∀ lat lon s : ℝ, 35786 ≤ geo_slant_range_km lat lon s) ∧
    (∀ lat lon s re rs : ℝ, 0 ≤ geo_slant_range_km_gen lat lon s re rs) :=
  ⟨geo_sub_satellite, geo_ge, geo_nonneg⟩

/-- C4: the orchestrator performs no strict-positivity validation.  On a
request whose noise bandwidth is 0 — which the claim says must be
rejected with a client error before the computation — the pipeline runs,
log10 raises a math domain error, and the endpoint surfaces a server
error, which is distinct from a client error. -/
theorem C4_no_validation_zero_bandwidth :
    req0.freqs.noise_bandwidth_hz = 0 ∧
    compute_cni req0 = Except.error RFError.domainError ∧
    Except.error RFError.domainError ≠
      (Except.error RFError.clientError : Except RFError CniResponse) := by
  refine ⟨rfl, ?_, by intro h; cases h⟩
  have h1 : geo_slant_range_km 0 0 0 = 35786 := geo_sub_satellite 0
  simp only [compute_cni, req0]
  rw [h1]
  rw [fspl_pos_pos (by norm_num) (by norm_num : (0:ℝ) < 14),
    fspl_pos_pos (by norm_num) (by norm_num : (0:ℝ) < 12)]
  simp only [toED]
  rw [cn_db_zero_bw]

/-- C10: the modcod margin affects only the suggested MODCOD — two
requests identical except for modcod_margin_db yield responses with the
same five numeric link-quality fields (and the same error behavior). -/
theorem C10_margin_only_affects_modcod :
    ∀ (req : CniRequest) (m1 m2 : ℝ),
      (compute_cni (setMargin req m1)).map stripModcod =
      (compute_cni (setMargin req m2)).map stripModcod := by
  intro req m1 m2
  obtain ⟨u1, u2, g, rf, fr, mm⟩ := req
  simp only [compute_cni, setMargin]
  cases toED (fspl_db? (geo_slant_range_km u1.location.latitude_deg
      u1.location.longitude_deg g.satellite_longitude_deg)
      fr.uplink_freq_ghz) with
  | error er => rfl
  | ok f1 =>
    dsimp only
    cases toED (fspl_db? (geo_slant_range_km u2.location.latitude_deg
        u2.location.longitude_deg g.satellite_longitude_deg)
        fr.downlink_freq_ghz) with
    | error er => rfl
    | ok f2 =>
      dsimp only
      cases toED (cn_db_from_cn0? (cn0_dbhz_from_eirp_gt u1.eirp_dbw
          rf.uplink_gt_dbk f1 rf.uplink_impl_margin_db)
          fr.noise_bandwidth_hz) with
      | error er => rfl
      | ok c1 =>
        dsimp only
        cases toED (cn_db_from_cn0? (cn0_dbhz_from_eirp_gt
            rf.downlink_eirp_dbw u2.gt_dbk f2
            rf.downlink_impl_margin_db) fr.noise_bandwidth_hz) with
        | error er => rfl
        | ok c2 =>
          dsimp only
          simp only [Except.map, stripModcod]

end Satcom
